import Mathlib

/-!
Verification of the brain-dump diagnostic scripts
(`src/backend/debug_note_flow.mjs` and `src/backend/debug_reminder_flow.mjs`)
against their natural-language specification.

The scripts are sequential Node programs that fetch JSON over HTTP, parse it,
and check it against a "note" / "reminder" contract.  We embed them shallowly:

* JavaScript values arising from `JSON.parse` are the inductive `JsVal`
  (`JSON.parse` never yields `undefined`; an absent property is modelled as
  `Option.none` at the access site).
* `fetch` and `JSON.parse` are platform builtins, so a network interaction is
  modelled as a `Transport` record carrying the HTTP status, the raw body
  text, and the result of `JSON.parse` on that body (`none` = the parse threw).
* Each script's control flow after the network calls is a pure Lean function
  of its transports; a thrown JS `Error` that reaches the final
  `.catch((e) => { console.error(e.message); process.exit(1); })` becomes
  `RunResult.exit1 msg` (msg = the message printed to standard error), and a
  normal return becomes `RunResult.exit0`.
-/

/-- JavaScript values as produced by a successful `JSON.parse`:
null, booleans, numbers, strings, arrays and plain objects.
(JSON numbers in the responses under test are integral; `Int` suffices
because no claim involves numeric arithmetic.) -/
inductive JsVal where
  | null
  | bool (b : Bool)
  | num (n : Int)
  | str (s : String)
  | arr (elems : List JsVal)
  | obj (fields : List (String × JsVal))

/-- JavaScript `typeof` on a `JsVal`: `typeof null` is `"object"`, and arrays
and plain objects are both `"object"`. -/
def JsVal.typeofStr : JsVal → String
  | .null => "object"
  | .bool _ => "boolean"
  | .num _ => "number"
  | .str _ => "string"
  | .arr _ => "object"
  | .obj _ => "object"

/-- Whether the value is JavaScript `null` (for the source's `!== null`). -/
def JsVal.isNull : JsVal → Bool
  | .null => true
  | _ => false

/-- Property read `v.k` on a non-null value: field lookup on an object,
`undefined` (`none`) on primitives and arrays (none of the property names the
scripts read — `status`, `intent`, `message`, `registration_url`,
`reminder_*`, `clarification_for` — exists on a primitive wrapper or on
`Array.prototype`).  Reading a property of `null` throws a `TypeError` in
JavaScript; callers model that case separately before using `getField`. -/
def JsVal.getField : JsVal → String → Option JsVal
  | .obj fields, k => fields.lookup k
  | _, _ => none

/-- The JavaScript `in` operator restricted to own properties (the keys the
scripts test — `status`, `intent`, `message` — are never inherited from
`Object.prototype` or `Array.prototype`, so own-property lookup is exact for
them): key membership on an object, string-form index membership on an array,
and `false` on primitives. -/
def JsVal.hasKey : JsVal → String → Bool
  | .obj fields, k => (fields.lookup k).isSome
  | .arr elems, k => (List.range elems.length).any (fun i => toString i == k)
  | _, _ => false

/-- Optional chaining `v?.k`: `undefined` when `v` is `null`, plain property
access otherwise (a parsed JSON value is never `undefined`). -/
def JsVal.optChain (v : JsVal) (k : String) : Option JsVal :=
  match v with
  | .null => none
  | _ => v.getField k

/-- JavaScript truthiness of a possibly-`undefined` (`none`) value, as used by
`if (verify.json?.registration_url)`. -/
def truthy : Option JsVal → Bool
  | none => false
  | some .null => false
  | some (.bool b) => b
  | some (.num n) => n != 0
  | some (.str s) => s != ""
  | some (.arr _) => true
  | some (.obj _) => true

/-- Strict equality `v === "lit"` of a possibly-`undefined` property value
with a string literal: true exactly when the value is that string. -/
def strEq : Option JsVal → String → Bool
  | some (.str t), s => t == s
  | _, _ => false

/-- `typeof v === "string"` for a possibly-`undefined` property value. -/
def isStringVal : Option JsVal → Bool
  | some (.str _) => true
  | _ => false

/-- JavaScript `String.prototype.trim`: strip whitespace from both ends.
(JS trims Unicode WhiteSpace and LineTerminator; `Char.isWhitespace` covers
the space, tab, newline and carriage-return characters that occur here.) -/
def jsTrim (s : String) : String :=
  ⟨((s.data.dropWhile Char.isWhitespace).reverse.dropWhile Char.isWhitespace).reverse⟩

/-- `v.trim().length > 0` for a property value already known to be a string
(the note validator checks string-ness first). -/
def trimNonEmpty : Option JsVal → Bool
  | some (.str t) => (jsTrim t).length > 0
  | _ => false

/-- Outcome of one contract-validation block: it ran to its success end,
took the informational intent-mismatch branch and returned, threw an
`assert` `Error` (payload = the assertion's description, without the
`"ASSERT FAILED: "` prefix the `assert` helper prepends), or threw a runtime
`TypeError` (property read on `null`). -/
inductive Outcome where
  | ok
  | intentMismatch
  | assertFailed (msg : String)
  | typeError
deriving DecidableEq

/-- The note-contract validation of `debug_note_flow.mjs` lines 67-84,
translated assert-by-assert, in state-passing form: the result is paired with
the response object as it stands when the block finishes (the source never
assigns into `bd.json`, so every branch returns the argument unchanged). -/
def validateNoteProc (j : JsVal) : Outcome × JsVal :=
  -- line 67: assert(typeof bd.json === "object" && bd.json !== null, ...)
  if !(j.typeofStr == "object" && !j.isNull) then
    (.assertFailed "Response must be an object", j)
  -- lines 68-70: presence of the three common keys
  else if !(j.hasKey "status") then (.assertFailed "Missing 'status'", j)
  else if !(j.hasKey "intent") then (.assertFailed "Missing 'intent'", j)
  else if !(j.hasKey "message") then (.assertFailed "Missing 'message'", j)
  -- line 77: if (bd.json.intent === "note")
  else if strEq (j.getField "intent") "note" then
    -- line 78: status must be SUCCESS
    if !(strEq (j.getField "status") "SUCCESS") then
      (.assertFailed "For note, status must be SUCCESS", j)
    -- line 79: message must be a string
    else if !(isStringVal (j.getField "message")) then
      (.assertFailed "For note, message must be a string", j)
    -- line 80: message.trim().length > 0
    else if !(trimNonEmpty (j.getField "message")) then
      (.assertFailed "For note, message must not be empty", j)
    else (.ok, j)
  -- lines 82-84: informational mismatch, no throw
  else (.intentMismatch, j)

/-- The outcome of the note-contract validation. -/
def validateNote (j : JsVal) : Outcome := (validateNoteProc j).1

/-- The contract-validation part of `testReminder` in
`debug_reminder_flow.mjs` lines 53-77, in the same state-passing form.
Line 56 reads `bd.json.intent` with no object check first, so a `null` body
throws a `TypeError`; on any other value the property read yields the field
or `undefined`.  Lines 62-77 only `console.log` the fields and branch on
`status` for logging — they contain no assertion, so every non-mismatch,
non-null case runs to the end of the function. -/
def testReminderProc (j : JsVal) : Outcome × JsVal :=
  -- line 56 reads bd.json.intent: a TypeError when bd.json is null
  if j.isNull then (.typeError, j)
  -- line 56: if (bd.json.intent !== "reminder") { log; return; }
  else if !(strEq (j.getField "intent") "reminder") then (.intentMismatch, j)
  -- lines 62-77: logging only (including the status branches), no asserts
  else (.ok, j)

/-- The outcome of the reminder-flow validation block. -/
def testReminderValidate (j : JsVal) : Outcome := (testReminderProc j).1

/-- One HTTP interaction as the scripts observe it: the response status, the
raw body text, and what `JSON.parse` made of that body (`none` models the
parse throwing, i.e. a non-JSON body).  `fetch` and `JSON.parse` are platform
builtins, so their outcome is an input of the model. -/
structure Transport where
  status : Nat
  body : String
  parsed : Option JsVal

/-- What `getJson` resolves to on the success path:
`{ status: res.status, ok: res.ok, json }`. -/
structure GetJsonOk where
  status : Nat
  ok : Bool
  json : JsVal

/-- `Response.ok` of the Fetch standard: status in the range 200-299. -/
def httpOk (s : Nat) : Bool := 200 ≤ s && s < 300

/-- The message of the `Error` thrown by `getJson` when `JSON.parse` throws
(both scripts, identical text): the template literal
`Non-JSON response from ${url}\nStatus: ${res.status}\nBody:\n${text}`. -/
def formatErrorMsg (url : String) (status : Nat) (body : String) : String :=
  "Non-JSON response from " ++ url ++ "\nStatus: " ++ toString status
    ++ "\nBody:\n" ++ body

/-- `getJson` of both scripts (`debug_note_flow.mjs` lines 12-31,
`debug_reminder_flow.mjs` lines 11-30): parse failure throws the format
error; otherwise the parsed body is returned together with the HTTP status
and the `ok` flag, with no branch on either. -/
def getJson (url : String) (t : Transport) : Except String GetJsonOk :=
  match t.parsed with
  | none => .error (formatErrorMsg url t.status t.body)
  | some j => .ok ⟨t.status, httpOk t.status, j⟩

/-- How the scripts' processes end: exit code 0, or exit code 1 with the
message the final `.catch` handler prints to standard error. -/
inductive RunResult where
  | exit0
  | exit1 (stderrMsg : String)
deriving DecidableEq

/-- The message of the `TypeError` the Node runtime throws for
`bd.json.intent` when `bd.json` is `null` (V8 wording). -/
def nullIntentTypeError : String :=
  "Cannot read properties of null (reading 'intent')"

/-- How a validation outcome reaches the process boundary through the
scripts' final `.catch`: thrown errors print their message and exit 1,
normal completion (including the informational mismatch) exits 0. -/
def outcomeToResult : Outcome → RunResult
  | .ok => .exit0
  | .intentMismatch => .exit0
  | .assertFailed m => .exit1 ("ASSERT FAILED: " ++ m)
  | .typeError => .exit1 nullIntentTypeError

/-- Hard-coded base URL (both scripts, line 4). -/
def BASE_URL : String := "https://brain-dump-py.onrender.com"

/-- Hard-coded test identifier (both scripts). `encodeURIComponent` is the
identity on this identifier (letters and underscore only). -/
def TECHNICAL_ID : String := "Daniel_iPhone"

/-- The user-lookup URL of `debug_note_flow.mjs` line 35. -/
def verifyUrl : String := BASE_URL ++ "/verify-user?user_id=" ++ TECHNICAL_ID

/-- The classification URL (`/brain-dump`) both scripts POST to. -/
def postUrl : String := BASE_URL ++ "/brain-dump"

/-- Observable output of one run of `debug_note_flow.mjs`: the process
result, the URLs passed to `fetch` in order, and the `registration_url`
value logged at the short-circuit (line 44) when that branch is taken. -/
structure NoteRunOut where
  result : RunResult
  calls : List String
  reportedRegUrl : Option JsVal

/-- The main IIFE of `debug_note_flow.mjs` (lines 33-88) as a function of its
two network interactions: the `/verify-user` GET and the `/brain-dump` POST.
Verify-parse failure aborts; a truthy `verify.json?.registration_url`
short-circuits with a normal return (exit 0) before any POST; otherwise the
POST happens, then the note-contract validation decides the exit. -/
def noteFlowRun (verifyT bdT : Transport) : NoteRunOut :=
  match getJson verifyUrl verifyT with
  | .error msg => { result := .exit1 msg, calls := [verifyUrl], reportedRegUrl := none }
  | .ok verify =>
    -- line 42: if (verify.json?.registration_url) { log it; return; }
    if truthy (verify.json.optChain "registration_url") then
      { result := .exit0, calls := [verifyUrl],
        reportedRegUrl := verify.json.getField "registration_url" }
    else
      match getJson postUrl bdT with
      | .error msg =>
        { result := .exit1 msg, calls := [verifyUrl, postUrl], reportedRegUrl := none }
      | .ok bd =>
        { result := outcomeToResult (validateNote bd.json),
          calls := [verifyUrl, postUrl], reportedRegUrl := none }

/-- The exception view of a validation outcome: `.error` with the message an
escaping throw would carry, `.ok` for normal completion. -/
def outcomeToExcept : Outcome → Except String Unit
  | .ok => .ok ()
  | .intentMismatch => .ok ()
  | .assertFailed m => .error ("ASSERT FAILED: " ++ m)
  | .typeError => .error nullIntentTypeError

/-- One `testReminder` call of `debug_reminder_flow.mjs` as a function of its
POST interaction: `.error` = an exception escaped (format error or the null
`TypeError`), `.ok` = the function returned normally. -/
def testReminderRun (t : Transport) : Except String Unit :=
  match getJson postUrl t with
  | .error msg => .error msg
  | .ok bd => outcomeToExcept (testReminderValidate bd.json)

/-- The main IIFE of `debug_reminder_flow.mjs` (lines 80-102): two sequential
`testReminder` calls; the first escaped exception aborts the run (the second
call never happens), otherwise exit 0. -/
def reminderFlowRun (t1 t2 : Transport) : RunResult :=
  match testReminderRun t1 with
  | .error msg => .exit1 msg
  | .ok _ =>
    match testReminderRun t2 with
    | .error msg => .exit1 msg
    | .ok _ => .exit0

/-- Substring containment, used to state that a diagnostic message carries a
given piece of text. -/
def containsSub (s sub : String) : Prop := ∃ pre post, s = pre ++ (sub ++ post)

/-- The spec's note biconditional, written from the spec's words:
`status == SUCCESS` ⇔ `message` is a non-empty (post-trim) string. -/
def noteStatusMessageBicond (j : JsVal) : Prop :=
  strEq (j.getField "status") "SUCCESS" = true ↔
    (isStringVal (j.getField "message") && trimNonEmpty (j.getField "message")) = true

instance (j : JsVal) : Decidable (noteStatusMessageBicond j) := by
  unfold noteStatusMessageBicond; infer_instance

/-! ## Concrete parsed responses used as test vectors -/

/-- A reminder-intent response claiming SUCCESS with a lexically malformed
`reminder_time` and no `reminder_date` key at all. -/
def reminderBadSuccess : JsVal :=
  .obj [("status", .str "SUCCESS"), ("intent", .str "reminder"),
        ("message", .str "Reminder created"), ("reminder_title", .str "call mom"),
        ("reminder_time", .str "banana")]

/-- A reminder-intent response in NEEDS_CLARIFICATION state with no
`clarification_for` key. -/
def reminderNoClarification : JsVal :=
  .obj [("status", .str "NEEDS_CLARIFICATION"), ("intent", .str "reminder"),
        ("message", .str "What time?")]

/-- A note-intent response satisfying the full note contract. -/
def noteOkBody : JsVal :=
  .obj [("status", .str "SUCCESS"), ("intent", .str "note"),
        ("message", .str "idea for a new project")]

/-- A note-intent response whose status is neither SUCCESS nor accompanied by
a non-blank message: the spec biconditional holds (both sides false), yet the
status assert fires. -/
def notePendingBlank : JsVal :=
  .obj [("status", .str "PENDING"), ("intent", .str "note"),
        ("message", .str "  ")]

/-- A note-intent response with SUCCESS status but an empty message: the spec
biconditional is violated (left side true, right side false). -/
def noteSuccessEmpty : JsVal :=
  .obj [("status", .str "SUCCESS"), ("intent", .str "note"), ("message", .str "")]

/-- A response missing the `status` key entirely. -/
def noteMissingStatus : JsVal :=
  .obj [("intent", .str "note"), ("message", .str "x")]

/-- A verify-user response carrying `registration_url` as the empty string:
the key is present but the value is falsy. -/
def verifyEmptyRegUrl : JsVal :=
  .obj [("registration_url", .str "")]

/-- A verify-user response with a truthy `registration_url`. -/
def verifyWithRegUrl : JsVal :=
  .obj [("registered", .bool false),
        ("registration_url", .str "https://brain-dump-py.onrender.com/register")]

/-- A verify-user response of a registered user (no `registration_url`). -/
def verifyRegistered : JsVal :=
  .obj [("registered", .bool true)]

/-- A transport whose body parses to the given value (HTTP 200). -/
def okT (j : JsVal) : Transport := ⟨200, "body", some j⟩

/-- A transport whose body is not JSON (HTTP 500, body "oops"). -/
def badT : Transport := ⟨500, "oops", none⟩

/-! ## General lemmas about the embedding -/

/-- A successful association-list lookup exhibits a member pair. -/
theorem lookup_mem {α β : Type} [BEq α] [LawfulBEq α] {fields : List (α × β)} {k : α} {v : β}
    (h : fields.lookup k = some v) : (k, v) ∈ fields := by
  induction fields with
  | nil => simp at h
  | cons hd tl ih =>
    obtain ⟨k1, v1⟩ := hd
    by_cases hk : k = k1
    · subst hk
      simp [List.lookup] at h
      simp [h]
    · have hb : (k == k1) = false := beq_eq_false_iff_ne.mpr hk
      simp [List.lookup, hb] at h
      exact List.mem_cons_of_mem _ (ih h)

/-- A property value strictly equal to a string literal is that string. -/
theorem strEq_some {ov : Option JsVal} {s : String} (h : strEq ov s = true) :
    ov = some (.str s) := by
  match ov with
  | none => simp [strEq] at h
  | some .null => simp [strEq] at h
  | some (.bool b) => simp [strEq] at h
  | some (.num n) => simp [strEq] at h
  | some (.str t) => simp [strEq] at h; subst h; rfl
  | some (.arr l) => simp [strEq] at h
  | some (.obj f) => simp [strEq] at h

/-- Only plain objects have a property strictly equal to a string literal. -/
theorem strEq_obj {j : JsVal} {k s : String} (h : strEq (j.getField k) s = true) :
    ∃ fields, j = .obj fields := by
  cases j <;> simp [JsVal.getField, strEq] at h ⊢

/-- A present property makes the `in` check succeed. -/
theorem getField_some_hasKey {j : JsVal} {k : String} {v : JsVal}
    (h : j.getField k = some v) : j.hasKey k = true := by
  cases j <;> simp [JsVal.getField, JsVal.hasKey] at h ⊢
  exact ⟨v, lookup_mem h⟩

/-- The note validation never writes into the response object. -/
theorem validateNoteProc_snd (j : JsVal) : (validateNoteProc j).2 = j := by
  unfold validateNoteProc
  split_ifs <;> rfl

/-- The reminder validation never writes into the response object. -/
theorem testReminderProc_snd (j : JsVal) : (testReminderProc j).2 = j := by
  unfold testReminderProc
  split_ifs <;> rfl

/-- Exactly the responses passing every assert of the note branch validate
to `ok`. -/
theorem validateNote_ok_iff (j : JsVal) :
    validateNote j = .ok ↔
      ((j.typeofStr == "object" && !j.isNull) = true ∧ j.hasKey "status" = true ∧
       j.hasKey "intent" = true ∧ j.hasKey "message" = true ∧
       strEq (j.getField "intent") "note" = true ∧
       strEq (j.getField "status") "SUCCESS" = true ∧
       isStringVal (j.getField "message") = true ∧
       trimNonEmpty (j.getField "message") = true) := by
  unfold validateNote validateNoteProc
  split_ifs with h1 h2 h3 h4 h5 h6 h7 h8 <;> simp_all
  intro ht hn _ _ _ _ _ _
  rcases h1 with h1 | h1
  · exact absurd ht h1
  · simp [h1] at hn

/-- The note validation can throw only `assert` errors, never a `TypeError`:
line 67 checks object-ness before any field access. -/
theorem validateNote_ne_typeError (j : JsVal) : validateNote j ≠ .typeError := by
  unfold validateNote validateNoteProc
  split_ifs <;> simp

/-- The note run on the main path: both bodies parse, no registration
short-circuit, so the validator decides everything. -/
theorem noteFlowRun_validate (vT bdT : Transport) (vj j : JsVal)
    (hv : vT.parsed = some vj) (hreg : truthy (vj.optChain "registration_url") = false)
    (hbd : bdT.parsed = some j) :
    noteFlowRun vT bdT =
      { result := outcomeToResult (validateNote j), calls := [verifyUrl, postUrl],
        reportedRegUrl := none } := by
  simp [noteFlowRun, getJson, hv, hreg, hbd]

/-- The note run when the registration short-circuit triggers. -/
theorem noteFlowRun_shortcut (vT bdT : Transport) (vj : JsVal)
    (hv : vT.parsed = some vj) (hreg : truthy (vj.optChain "registration_url") = true) :
    noteFlowRun vT bdT =
      { result := .exit0, calls := [verifyUrl],
        reportedRegUrl := vj.getField "registration_url" } := by
  simp [noteFlowRun, getJson, hv, hreg]

/-- The note run when the verify body does not parse. -/
theorem noteFlowRun_verifyParseErr (vT bdT : Transport) (hv : vT.parsed = none) :
    noteFlowRun vT bdT =
      { result := .exit1 (formatErrorMsg verifyUrl vT.status vT.body),
        calls := [verifyUrl], reportedRegUrl := none } := by
  simp [noteFlowRun, getJson, hv]

/-- The note run when the brain-dump body does not parse. -/
theorem noteFlowRun_bdParseErr (vT bdT : Transport) (vj : JsVal)
    (hv : vT.parsed = some vj) (hreg : truthy (vj.optChain "registration_url") = false)
    (hbd : bdT.parsed = none) :
    noteFlowRun vT bdT =
      { result := .exit1 (formatErrorMsg postUrl bdT.status bdT.body),
        calls := [verifyUrl, postUrl], reportedRegUrl := none } := by
  simp [noteFlowRun, getJson, hv, hreg, hbd]

/-- One reminder test call with a parsed body. -/
theorem testReminderRun_parsed (t : Transport) (j : JsVal) (h : t.parsed = some j) :
    testReminderRun t = outcomeToExcept (testReminderValidate j) := by
  simp [testReminderRun, getJson, h]

/-- One reminder test call with an unparseable body. -/
theorem testReminderRun_parseErr (t : Transport) (h : t.parsed = none) :
    testReminderRun t = .error (formatErrorMsg postUrl t.status t.body) := by
  simp [testReminderRun, getJson, h]

/-- C1: the spec requires the reminder contract validation, for
intent == "reminder" and status == "SUCCESS", to check
reminder_time against HH:MM and reminder_date against YYYY-MM-DD and to raise
a fatal ContractViolation when a field is absent or malformed.  The code
performs no such check: on a SUCCESS reminder response whose reminder_time is
"banana" and whose reminder_date is absent, testReminder only logs the fields
and the whole run exits 0 with no error raised. -/
theorem reminder_success_format_never_validated :
    strEq (reminderBadSuccess.getField "intent") "reminder" = true ∧
    strEq (reminderBadSuccess.getField "status") "SUCCESS" = true ∧
    reminderBadSuccess.getField "reminder_time" = some (.str "banana") ∧
    reminderBadSuccess.hasKey "reminder_date" = false ∧
    testReminderValidate reminderBadSuccess = .ok ∧
    reminderFlowRun (okT reminderBadSuccess) (okT reminderBadSuccess) = .exit0 :=
  ⟨rfl, rfl, rfl, rfl, rfl, rfl⟩

/-- C2: the spec requires the reminder contract validation, for
intent == "reminder" and status == "NEEDS_CLARIFICATION", to require a
non-empty clarification_for and raise a fatal ContractViolation when it is
missing.  The code performs no such check: on a NEEDS_CLARIFICATION reminder
response with no clarification_for key, testReminder only logs
(printing "clarification_for: undefined") and the run exits 0. -/
theorem reminder_clarification_never_validated :
    strEq (reminderNoClarification.getField "intent") "reminder" = true ∧
    strEq (reminderNoClarification.getField "status") "NEEDS_CLARIFICATION" = true ∧
    reminderNoClarification.hasKey "clarification_for" = false ∧
    testReminderValidate reminderNoClarification = .ok ∧
    reminderFlowRun (okT reminderNoClarification) (okT reminderNoClarification) = .exit0 :=
  ⟨rfl, rfl, rfl, rfl, rfl⟩

/-- C8: validation is idempotent and stateless: each validator is a function
of the response object alone, never writes into it, and re-running it on the
object left behind by a first run yields the identical outcome. -/
theorem validation_stateless_idempotent (j : JsVal) :
    (validateNoteProc j).2 = j ∧
    validateNoteProc ((validateNoteProc j).2) = validateNoteProc j ∧
    (testReminderProc j).2 = j ∧
    testReminderProc ((testReminderProc j).2) = testReminderProc j := by
  refine ⟨validateNoteProc_snd j, ?_, testReminderProc_snd j, ?_⟩
  · rw [validateNoteProc_snd]
  · rw [testReminderProc_snd]

/-- C10 counterexample: the claim extends the null failure to every non-object
JSON body, but a body parsing to the number 5 does not crash the reminder
flow: property access on a JS number yields undefined, the intent-mismatch
branch logs and returns, and the run exits 0. -/
theorem number_body_no_type_error :
    testReminderValidate (.num 5) = .intentMismatch ∧
    reminderFlowRun ⟨200, "5", some (.num 5)⟩ ⟨200, "5", some (.num 5)⟩ = .exit0 :=
  ⟨rfl, rfl⟩

/-- C10 (amended): only a body parsing to null makes testReminder throw a
runtime TypeError (aborting the run with exit 1 and the TypeError message,
not a ContractViolation); other non-object JSON bodies (numbers, strings,
booleans) take the informational intent-mismatch branch, and the note flow
can never reach a TypeError because it asserts object-ness first. -/
theorem null_body_type_error_reminder_only :
    testReminderValidate .null = .typeError ∧
    (∀ (s : Nat) (b : String) (t2 : Transport),
      reminderFlowRun ⟨s, b, some .null⟩ t2 = .exit1 nullIntentTypeError) ∧
    validateNote .null = .assertFailed "Response must be an object" ∧
    (∀ j, validateNote j ≠ .typeError) ∧
    (∀ n, testReminderValidate (.num n) = .intentMismatch) ∧
    (∀ s, testReminderValidate (.str s) = .intentMismatch) ∧
    (∀ b, testReminderValidate (.bool b) = .intentMismatch) := by
  refine ⟨rfl, ?_, rfl, validateNote_ne_typeError, fun n => rfl, fun s => rfl, fun b => rfl⟩
  intro s b t2
  have h := testReminderRun_parsed ⟨s, b, some .null⟩ .null rfl
  simp [reminderFlowRun, h, outcomeToExcept, testReminderValidate, testReminderProc, JsVal.isNull]

/-- C7 counterexample: a user-lookup response with registration_url present
but equal to the empty string indicates (per the claim's reading) an
unregistered identifier, yet the run does not short-circuit: it proceeds to
POST to the classification endpoint. -/
theorem registration_url_present_but_falsy_proceeds :
    verifyEmptyRegUrl.hasKey "registration_url" = true ∧
    postUrl ∈ (noteFlowRun (okT verifyEmptyRegUrl) (okT noteOkBody)).calls ∧
    (noteFlowRun (okT verifyEmptyRegUrl) (okT noteOkBody)).reportedRegUrl = none := by
  refine ⟨rfl, ?_, rfl⟩
  show postUrl ∈ [verifyUrl, postUrl]
  simp

/-- C7 (amended): for every user-lookup response whose registration_url is
present with a truthy value (e.g. a non-empty string), the run short-circuits:
it reports that registration_url value, makes no POST to the classification
endpoint (the only fetch is the verify-user GET, and the brain-dump transport
is never consulted), and exits 0. -/
theorem truthy_registration_url_short_circuits
    (vT bdT : Transport) (vj : JsVal)
    (hv : vT.parsed = some vj)
    (hreg : truthy (vj.optChain "registration_url") = true) :
    (noteFlowRun vT bdT).result = .exit0 ∧
    (noteFlowRun vT bdT).reportedRegUrl = vj.getField "registration_url" ∧
    (noteFlowRun vT bdT).calls = [verifyUrl] ∧
    postUrl ∉ (noteFlowRun vT bdT).calls ∧
    ∀ bdT2, noteFlowRun vT bdT = noteFlowRun vT bdT2 := by
  have h := noteFlowRun_shortcut vT bdT vj hv hreg
  refine ⟨by rw [h], by rw [h], by rw [h], ?_, ?_⟩
  · rw [h]
    simp only [List.mem_singleton]
    decide
  · intro bdT2
    rw [h, noteFlowRun_shortcut vT bdT2 vj hv hreg]

/-- C7 witness: the short-circuit theorem applied to a concrete unregistered
lookup response. -/
theorem truthy_registration_url_short_circuits_witness :
    (noteFlowRun (okT verifyWithRegUrl) badT).result = .exit0 ∧
    (noteFlowRun (okT verifyWithRegUrl) badT).reportedRegUrl =
      some (.str "https://brain-dump-py.onrender.com/register") ∧
    (noteFlowRun (okT verifyWithRegUrl) badT).calls = [verifyUrl] :=
  have h := truthy_registration_url_short_circuits (okT verifyWithRegUrl) badT
    verifyWithRegUrl rfl rfl
  ⟨h.1, h.2.1, h.2.2.1⟩

/-- C9: a non-2xx HTTP status with a parseable JSON body never aborts by
itself: getJson returns the parsed body together with the status (and the ok
flag, false here), the note run proceeds into contract validation (its result
is exactly the validation outcome), and neither flow's result depends on the
status or raw body of a parsed response. -/
theorem non_2xx_parseable_body_not_fatal
    (vT bdT : Transport) (vj j : JsVal)
    (hv : vT.parsed = some vj)
    (hreg : truthy (vj.optChain "registration_url") = false)
    (hbd : bdT.parsed = some j)
    (hnot2xx : httpOk bdT.status = false) :
    getJson postUrl bdT = .ok ⟨bdT.status, false, j⟩ ∧
    (noteFlowRun vT bdT).result = outcomeToResult (validateNote j) ∧
    (∀ (s : Nat) (b : String),
      (noteFlowRun vT ⟨s, b, some j⟩).result = (noteFlowRun vT bdT).result) ∧
    (∀ (s : Nat) (b : String) (t2 : Transport),
      reminderFlowRun ⟨s, b, some j⟩ t2 = reminderFlowRun bdT t2) := by
  refine ⟨?_, ?_, ?_, ?_⟩
  · simp [getJson, hbd, hnot2xx]
  · rw [noteFlowRun_validate vT bdT vj j hv hreg hbd]
  · intro s b
    rw [noteFlowRun_validate vT bdT vj j hv hreg hbd,
      noteFlowRun_validate vT ⟨s, b, some j⟩ vj j hv hreg rfl]
  · intro s b t2
    unfold reminderFlowRun
    rw [testReminderRun_parsed ⟨s, b, some j⟩ j rfl, testReminderRun_parsed bdT j hbd]

/-- C9 witness: a 404 response whose body parses to a valid note response is
returned by getJson and validated normally; the run exits 0. -/
theorem non_2xx_parseable_body_not_fatal_witness :
    getJson postUrl ⟨404, "body404", some noteOkBody⟩ = .ok ⟨404, false, noteOkBody⟩ ∧
    (noteFlowRun (okT verifyRegistered) ⟨404, "body404", some noteOkBody⟩).result =
      outcomeToResult (validateNote noteOkBody) :=
  have h := non_2xx_parseable_body_not_fatal (okT verifyRegistered)
    ⟨404, "body404", some noteOkBody⟩ verifyRegistered noteOkBody rfl rfl rfl rfl
  ⟨h.1, h.2.1⟩

/-- C5: every failed assertion is a hard stop: the thrown Error carries the
failing condition's description (prefixed "ASSERT FAILED: "), reaches the
catch handler which prints it to standard error, and the process exits
non-zero; when no assertion fails (contract ok or informational mismatch)
the exit code is 0. -/
theorem assertion_failure_hard_stop
    (vT bdT : Transport) (vj j : JsVal) (m : String)
    (hv : vT.parsed = some vj)
    (hreg : truthy (vj.optChain "registration_url") = false)
    (hbd : bdT.parsed = some j) :
    (validateNote j = .assertFailed m →
      (noteFlowRun vT bdT).result = .exit1 ("ASSERT FAILED: " ++ m) ∧
      containsSub ("ASSERT FAILED: " ++ m) m) ∧
    (validateNote j = .ok → (noteFlowRun vT bdT).result = .exit0) ∧
    (validateNote j = .intentMismatch → (noteFlowRun vT bdT).result = .exit0) := by
  have h := noteFlowRun_validate vT bdT vj j hv hreg hbd
  refine ⟨fun ha => ⟨?_, ?_⟩, fun ho => ?_, fun hi => ?_⟩
  · rw [h, ha]; rfl
  · exact ⟨"ASSERT FAILED: ", "", by rw [String.append_empty]⟩
  · rw [h, ho]; rfl
  · rw [h, hi]; rfl

/-- C5 witness: the theorem at a concrete run whose note response has a blank
message (the emptiness assert fires, exit 1) and at one whose response is
valid (exit 0). -/
theorem assertion_failure_hard_stop_witness :
    (noteFlowRun (okT verifyRegistered) (okT notePendingBlank)).result =
      .exit1 ("ASSERT FAILED: " ++ "For note, status must be SUCCESS") ∧
    (noteFlowRun (okT verifyRegistered) (okT noteOkBody)).result = .exit0 :=
  have h1 := assertion_failure_hard_stop (okT verifyRegistered) (okT notePendingBlank)
    verifyRegistered notePendingBlank "For note, status must be SUCCESS" rfl rfl rfl
  have h2 := assertion_failure_hard_stop (okT verifyRegistered) (okT noteOkBody)
    verifyRegistered noteOkBody "" rfl rfl rfl
  ⟨(h1.1 rfl).1, h2.2.1 rfl⟩

/-- The note validation ends in exactly one of three ways: contract ok,
informational mismatch, or a thrown assert. -/
theorem validateNote_cases (j : JsVal) :
    validateNote j = .ok ∨ validateNote j = .intentMismatch ∨
      ∃ m, validateNote j = .assertFailed m := by
  cases h : validateNote j with
  | ok => exact Or.inl rfl
  | intentMismatch => exact Or.inr (Or.inl rfl)
  | assertFailed m => exact Or.inr (Or.inr ⟨m, rfl⟩)
  | typeError => exact absurd h (validateNote_ne_typeError j)

/-- Exactly the well-formed responses of another intent take the
informational mismatch branch. -/
theorem validateNote_mismatch_iff (j : JsVal) :
    validateNote j = .intentMismatch ↔
      ((j.typeofStr == "object" && !j.isNull) = true ∧ j.hasKey "status" = true ∧
       j.hasKey "intent" = true ∧ j.hasKey "message" = true ∧
       strEq (j.getField "intent") "note" = false) := by
  unfold validateNote validateNoteProc
  split_ifs with h1 h2 h3 h4 h5 h6 h7 h8 <;> simp_all
  intro ht hn _ _ _
  rcases h1 with h1 | h1
  · exact absurd ht h1
  · simp [h1] at hn

/-- A response missing one of the three common keys always fails an assert. -/
theorem validateNote_missing_key_assert {j : JsVal}
    (h : j.hasKey "status" = false ∨ j.hasKey "intent" = false ∨
      j.hasKey "message" = false) :
    ∃ m, validateNote j = .assertFailed m := by
  rcases validateNote_cases j with hok | hmis | ha
  · obtain ⟨_, hs, hi, hm, _⟩ := (validateNote_ok_iff j).mp hok
    rcases h with h | h | h <;> simp_all
  · obtain ⟨_, hs, hi, hm, _⟩ := (validateNote_mismatch_iff j).mp hmis
    rcases h with h | h | h <;> simp_all
  · exact ha

/-- C3 counterexample: the claim says a ContractViolation is raised exactly
when the biconditional (status == SUCCESS iff message non-empty post-trim)
is violated; but on a note response with status "PENDING" and a blank
message the biconditional holds (both sides false) and the validator still
raises the status assert. -/
theorem note_bicond_holds_yet_raises :
    noteStatusMessageBicond notePendingBlank ∧
    validateNote notePendingBlank = .assertFailed "For note, status must be SUCCESS" :=
  ⟨by decide, rfl⟩

/-- C3 (amended): for a response with intent == "note", a violation of the
biconditional (status == SUCCESS iff message is a non-empty post-trim
string) always raises a ContractViolation assert, and when validation passes
status equals SUCCESS and the trimmed message is non-empty; but the converse
of the first part does not hold (the validator also raises for some responses
satisfying the biconditional, e.g. non-SUCCESS status with blank message). -/
theorem note_bicond_violation_raises (j : JsVal)
    (hintent : strEq (j.getField "intent") "note" = true) :
    (¬ noteStatusMessageBicond j → ∃ m, validateNote j = .assertFailed m) ∧
    (validateNote j = .ok →
      strEq (j.getField "status") "SUCCESS" = true ∧
      isStringVal (j.getField "message") = true ∧
      trimNonEmpty (j.getField "message") = true) := by
  constructor
  · intro hnb
    rcases validateNote_cases j with hok | hmis | hassert
    · obtain ⟨_, _, _, _, _, hS, hstr, htr⟩ := (validateNote_ok_iff j).mp hok
      exact absurd (by unfold noteStatusMessageBicond; simp [hS, hstr, htr]) hnb
    · obtain ⟨_, _, _, _, hne⟩ := (validateNote_mismatch_iff j).mp hmis
      rw [hintent] at hne
      cases hne
    · exact hassert
  · intro hok
    obtain ⟨_, _, _, _, _, hS, hstr, htr⟩ := (validateNote_ok_iff j).mp hok
    exact ⟨hS, hstr, htr⟩

/-- C3 witness: the theorem applied at a SUCCESS-with-empty-message response
(biconditional violated, an assert fires) and at a fully valid note response
(validation passes, both contract facts hold). -/
theorem note_bicond_violation_raises_witness :
    (¬ noteStatusMessageBicond noteSuccessEmpty ∧
      ∃ m, validateNote noteSuccessEmpty = .assertFailed m) ∧
    (strEq (noteOkBody.getField "status") "SUCCESS" = true ∧
      isStringVal (noteOkBody.getField "message") = true ∧
      trimNonEmpty (noteOkBody.getField "message") = true) :=
  ⟨⟨by decide, (note_bicond_violation_raises noteSuccessEmpty rfl).1 (by decide)⟩,
   (note_bicond_violation_raises noteOkBody rfl).2 rfl⟩

/-- C4: the note contract validation asserts presence of status, intent and
message for every parsed response (a missing key fails fatally: the run
exits 1 with the assert message), and an intent other than "note" on a
response with all common keys present is only reported informationally: the
validation takes the mismatch branch and the run exits 0. -/
theorem note_common_keys_asserted
    (vT bdT : Transport) (vj j : JsVal)
    (hv : vT.parsed = some vj)
    (hreg : truthy (vj.optChain "registration_url") = false)
    (hbd : bdT.parsed = some j) :
    (j.hasKey "status" = false →
      ∃ m, validateNote j = .assertFailed m ∧
        (noteFlowRun vT bdT).result = .exit1 ("ASSERT FAILED: " ++ m)) ∧
    (j.hasKey "intent" = false →
      ∃ m, validateNote j = .assertFailed m ∧
        (noteFlowRun vT bdT).result = .exit1 ("ASSERT FAILED: " ++ m)) ∧
    (j.hasKey "message" = false →
      ∃ m, validateNote j = .assertFailed m ∧
        (noteFlowRun vT bdT).result = .exit1 ("ASSERT FAILED: " ++ m)) ∧
    ((j.typeofStr == "object" && !j.isNull) = true →
      j.hasKey "status" = true → j.hasKey "intent" = true →
      j.hasKey "message" = true →
      strEq (j.getField "intent") "note" = false →
      validateNote j = .intentMismatch ∧ (noteFlowRun vT bdT).result = .exit0) := by
  have hrun := noteFlowRun_validate vT bdT vj j hv hreg hbd
  have abort : ∀ h : (j.hasKey "status" = false ∨ j.hasKey "intent" = false ∨
      j.hasKey "message" = false),
      ∃ m, validateNote j = .assertFailed m ∧
        (noteFlowRun vT bdT).result = .exit1 ("ASSERT FAILED: " ++ m) := by
    intro h
    obtain ⟨m, hm⟩ := validateNote_missing_key_assert h
    exact ⟨m, hm, by rw [hrun, hm]; rfl⟩
  refine ⟨fun h => abort (Or.inl h), fun h => abort (Or.inr (Or.inl h)),
    fun h => abort (Or.inr (Or.inr h)), fun hobj hs hi hm hne => ?_⟩
  have hmis : validateNote j = .intentMismatch :=
    (validateNote_mismatch_iff j).mpr ⟨hobj, hs, hi, hm, hne⟩
  exact ⟨hmis, by rw [hrun, hmis]; rfl⟩

/-- C4 witness: the theorem at a response missing its status key (the run
exits 1 with the assert message) and at a well-formed response of reminder
intent (informational mismatch, the run exits 0). -/
theorem note_common_keys_asserted_witness :
    (∃ m, validateNote noteMissingStatus = .assertFailed m ∧
      (noteFlowRun (okT verifyRegistered) (okT noteMissingStatus)).result =
        .exit1 ("ASSERT FAILED: " ++ m)) ∧
    (validateNote reminderBadSuccess = .intentMismatch ∧
      (noteFlowRun (okT verifyRegistered) (okT reminderBadSuccess)).result = .exit0) :=
  ⟨(note_common_keys_asserted (okT verifyRegistered) (okT noteMissingStatus)
      verifyRegistered noteMissingStatus rfl rfl rfl).1 rfl,
   (note_common_keys_asserted (okT verifyRegistered) (okT reminderBadSuccess)
      verifyRegistered reminderBadSuccess rfl rfl rfl).2.2.2 rfl rfl rfl rfl rfl⟩

/-- C6: when a response body from either endpoint is not parseable as JSON,
getJson throws an Error whose message contains both the HTTP status code and
the raw body text, and the run aborts with that message: the note flow at the
verify-user GET or at the brain-dump POST, and the reminder flow at its
brain-dump POST. -/
theorem unparseable_body_format_error (url : String) (t : Transport)
    (h : t.parsed = none) :
    getJson url t = .error (formatErrorMsg url t.status t.body) ∧
    containsSub (formatErrorMsg url t.status t.body) (toString t.status) ∧
    containsSub (formatErrorMsg url t.status t.body) t.body ∧
    (∀ bdT, (noteFlowRun t bdT).result =
      .exit1 (formatErrorMsg verifyUrl t.status t.body)) ∧
    (∀ (vT : Transport) (vj : JsVal), vT.parsed = some vj →
      truthy (vj.optChain "registration_url") = false →
      (noteFlowRun vT t).result = .exit1 (formatErrorMsg postUrl t.status t.body)) ∧
    (∀ t2, reminderFlowRun t t2 = .exit1 (formatErrorMsg postUrl t.status t.body)) := by
  refine ⟨by simp [getJson, h], ?_, ?_, ?_, ?_, ?_⟩
  · refine ⟨"Non-JSON response from " ++ url ++ "\nStatus: ", "\nBody:\n" ++ t.body, ?_⟩
    unfold formatErrorMsg
    rw [← String.append_assoc, ← String.append_assoc]
  · refine ⟨"Non-JSON response from " ++ url ++ "\nStatus: " ++ toString t.status
      ++ "\nBody:\n", "", ?_⟩
    unfold formatErrorMsg
    rw [String.append_empty]
  · intro bdT
    rw [noteFlowRun_verifyParseErr t bdT h]
  · intro vT vj hv hreg
    rw [noteFlowRun_bdParseErr vT t vj hv hreg h]
  · intro t2
    unfold reminderFlowRun
    rw [testReminderRun_parseErr t h]

/-- C6 witness: the theorem at a concrete HTTP 500 response with body "oops";
the error message is the concrete interpolated string. -/
theorem unparseable_body_format_error_witness :
    getJson verifyUrl badT =
      .error "Non-JSON response from https://brain-dump-py.onrender.com/verify-user?user_id=Daniel_iPhone\nStatus: 500\nBody:\noops" ∧
    (noteFlowRun badT badT).result =
      .exit1 "Non-JSON response from https://brain-dump-py.onrender.com/verify-user?user_id=Daniel_iPhone\nStatus: 500\nBody:\noops" :=
  have h := unparseable_body_format_error verifyUrl badT rfl
  ⟨h.1, (h.2.2.2.1 badT)⟩
